import Mathlib

/-!
# hidtracker: a verification development of `src/main.cpp`

The program talks to three outside parties: the IOKit broker (`foohid`), the C
library (`strdup`, `free`, `rand`, `printf`, `usleep`) and linuxtrack.  The
embedding is by explicit state passing: the state is the `Trace` of everything
the process did so far, and each outside party is an oracle that answers from
that history, so a theorem quantified over `Env` holds for every
(history-dependent) behaviour of the broker, of `rand` and of the tracker.

Machine integers are `Nat`/`Int` with explicit wrap-around where the source
narrows (`to_int8`, `to_uint64`, `to_int`).  A `printf` is recorded with its
format string only.  Pointers are addresses (`Nat`); a buffer passed by address
carries the bytes stored there.
-/

namespace Hidtracker

/-! ## Constants of the source -/

def FOOHID_CREATE : Nat := 0
def FOOHID_DESTROY : Nat := 1
def FOOHID_SEND : Nat := 2
def FOOHID_LIST : Nat := 3

def FoohidService : String := "it_unbit_foohid"
def FoohidDevice : String := "Virtual GamePad FooBar"

/-- The bytes of `report_descriptor`, in source order (lines 17-45). -/
def report_descriptor : List Nat :=
  [ 0x05, 0x01,
    0x09, 0x02,
    0xa1, 0x01,
    0x09, 0x01,
    0xa1, 0x00,
    0x05, 0x09,
    0x19, 0x01,
    0x29, 0x03,
    0x15, 0x00,
    0x25, 0x01,
    0x95, 0x03,
    0x75, 0x01,
    0x81, 0x02,
    0x95, 0x01,
    0x75, 0x05,
    0x81, 0x03,
    0x05, 0x01,
    0x09, 0x30,
    0x09, 0x31,
    0x15, 0x81,
    0x25, 0x7f,
    0x75, 0x08,
    0x95, 0x02,
    0x81, 0x06,
    0xc0,
    0xc0 ]

/-! ## Machine integers -/

/-- Conversion to `int8_t`: the value modulo `2^8`, read as two's complement. -/
def to_int8 (v : Int) : Int := (v + 128) % 256 - 128

/-- Conversion to `uint8_t`. -/
def to_uint8 (v : Int) : Nat := (v % 256).toNat

/-- Conversion to `int` (32 bit), as for `strlen(...)` and `sizeof(...)` passed to an `int` parameter. -/
def to_int (v : Int) : Int := (v + 2147483648) % 4294967296 - 2147483648

/-- The cast `(uint64_t) v`. -/
def to_uint64 (v : Int) : Nat := (v % 18446744073709551616).toNat

/-- The function `strlen` on a string constant. -/
def strlen (s : String) : Int := (s.length : Int)

/-! ## `mouse_report_t` -/

/-- The struct `mouse_report_t`: `uint8_t buttons; int8_t x; int8_t y;`. -/
structure mouse_report_t where
  buttons : Nat
  x : Int
  y : Int
deriving DecidableEq, Repr

/-- The values the three fields can hold (`uint8_t`, `int8_t`, `int8_t`). -/
def mouse_report_t.storable (r : mouse_report_t) : Prop :=
  r.buttons < 256 ∧ (-128 ≤ r.x ∧ r.x ≤ 127) ∧ (-128 ≤ r.y ∧ r.y ≤ 127)

instance (r : mouse_report_t) : Decidable r.storable := by
  unfold mouse_report_t.storable; infer_instance

/-- The object representation of a `mouse_report_t`: three members of size and
alignment 1, laid out in declaration order without padding. -/
def mouse_report_t.bytes (r : mouse_report_t) : List Nat :=
  [to_uint8 r.buttons, to_uint8 r.x, to_uint8 r.y]

/-- The value of `sizeof(mouse_report_t)`. -/
def sizeof_mouse_report_t : Nat := 3

/-- The value of `sizeof(report_descriptor)`. -/
def sizeof_report_descriptor : Nat := report_descriptor.length

/-! ## The trace -/

/-- A buffer passed by address: the address (the scalar that crosses the
boundary) and the bytes stored there at the time of the call. -/
structure Buffer where
  addr : Nat
  bytes : List Nat
deriving DecidableEq, Repr

/-- Everything the process does that is visible outside the function doing
it.  The `call_foohid_*` and `return_foohid_*` events mark entry to and return
from the three device operations; all others are calls of outside functions,
with the answer received. -/
inductive Event where
  | call_foohid_create (name : String) (name_len : Int) (descriptor : Buffer) (descriptor_len : Int)
  | return_foohid_create (ret : Int)
  | call_foohid_send (name : String) (name_len : Int) (descriptor : Buffer) (descriptor_len : Int)
  | return_foohid_send (ret : Int)
  | call_foohid_destroy (name : String) (name_len : Int)
  | return_foohid_destroy (ret : Int)
  | IOServiceGetMatchingServices (service_name : String) (ret : Int) (iterator : List Nat)
  | IOIteratorNext (service : Nat)
  | IOServiceOpen (service : Nat) (ret : Int) (conn : Nat)
  | IOObjectRelease
  | IOConnectCallScalarMethod (conn : Nat) (selector : Nat) (input : List Nat) (ret : Int) (output : Nat)
  | IOServiceClose (conn : Nat)
  | strdup (s : String) (copy : Nat)
  | free (p : Nat)
  | printf (format : String)
  | rand (value : Int)
  | usleep (usec : Nat)
  | linuxtrack_init (state : Int)
  | linuxtrack_get_tracking_state (state : Int)
  | linuxtrack_get_pose (ret : Int)
deriving DecidableEq, Repr

abbrev Trace := List Event

/-- The outside world.  Constants that the headers define (`KERN_SUCCESS`,
`IO_OBJECT_NULL`, `RAND_MAX`, the linuxtrack states) are parameters; every
outside function answers from the history of the process so far. -/
structure Env where
  KERN_SUCCESS : Int
  IO_OBJECT_NULL : Nat
  RAND_MAX : Int
  LINUXTRACK_OK : Int
  RUNNING : Int
  PAUSED : Int
  /-- The content of the uninitialised local `io_connect_t conn`. -/
  indeterminate_conn : Trace → Nat
  /-- Status, and the service instances the iterator will enumerate. -/
  IOServiceGetMatchingServices : Trace → String → Int × List Nat
  /-- Arguments: the service and the old content of `*conn`; result: status and new content of `*conn`. -/
  IOServiceOpen : Trace → Nat → Nat → Int × Nat
  /-- Arguments: connection, selector, scalar input; result: status and the content of `output` afterwards. -/
  IOConnectCallScalarMethod : Trace → Nat → Nat → List Nat → Int × Nat
  strdup : Trace → String → Nat
  rand : Trace → Int
  /-- The address of the local `mouse` in `main`. -/
  addr_mouse : Nat
  /-- The address of the global `report_descriptor`. -/
  addr_report_descriptor : Nat
  linuxtrack_init : Trace → Int
  linuxtrack_get_tracking_state : Trace → Int
  linuxtrack_get_pose : Trace → Int

/-! ## `foohid_connect`, `foohid_close` -/

/-- The `while` loop of `foohid_connect` (lines 94-103) over the instances the
iterator still holds, with the final `IOObjectRelease` and `return`.  The
iterator is the finite list of instances it will enumerate, so the enumeration
ends; `IOIteratorNext` answers `IO_OBJECT_NULL` when the list is used up.  The
result is the return value and the content of `*conn`. -/
def foohid_connect_loop (env : Env) : List Nat → Nat → Trace → (Int × Nat) × Trace
  | [], conn, tr =>
    let tr := tr ++ [Event.IOIteratorNext env.IO_OBJECT_NULL]
    let tr := tr ++ [Event.IOObjectRelease]
    ((0, conn), tr)
  | service :: iterator, conn, tr =>
    let tr := tr ++ [Event.IOIteratorNext service]
    if service ≠ env.IO_OBJECT_NULL then
      let r := env.IOServiceOpen tr service conn
      let tr := tr ++ [Event.IOServiceOpen service r.1 r.2]
      if r.1 = env.KERN_SUCCESS then
        let tr := tr ++ [Event.IOObjectRelease]
        ((0, r.2), tr)
      else
        foohid_connect_loop env iterator r.2 tr
    else
      let tr := tr ++ [Event.IOObjectRelease]
      ((0, conn), tr)

/-- The function `foohid_connect(io_connect_t *conn)`; `conn` is the content of `*conn` on entry. -/
def foohid_connect (env : Env) (conn : Nat) (tr : Trace) : (Int × Nat) × Trace :=
  let m := env.IOServiceGetMatchingServices tr FoohidService
  let tr := tr ++ [Event.IOServiceGetMatchingServices FoohidService m.1 m.2]
  if m.1 ≠ env.KERN_SUCCESS then
    ((-1, conn), tr)
  else
    foohid_connect_loop env m.2 conn tr

/-- The function `foohid_close`. -/
def foohid_close (conn : Nat) (tr : Trace) : Trace :=
  tr ++ [Event.IOServiceClose conn]

/-! ## `foohid_create`, `foohid_send`, `foohid_destroy` -/

/-- The function `foohid_create` (lines 111-147). -/
def foohid_create (env : Env) (name : String) (name_len : Int) (descriptor : Buffer)
    (descriptor_len : Int) (tr : Trace) : Int × Trace :=
  let tr := tr ++ [Event.call_foohid_create name name_len descriptor descriptor_len]
  if name_len = 0 ∨ descriptor_len = 0 then
    let tr := tr ++ [Event.printf "Invalid name or descriptor len values\n"]
    (-1, tr ++ [Event.return_foohid_create (-1)])
  else
    let c := foohid_connect env (env.indeterminate_conn tr) tr
    let conn := c.1.2
    let tr := c.2
    if c.1.1 ≠ 0 then
      let tr := tr ++ [Event.printf "Unable to open %s service\n"]
      (-2, tr ++ [Event.return_foohid_create (-2)])
    else
      let deviceName := env.strdup tr name
      let tr := tr ++ [Event.strdup name deviceName]
      let input := [deviceName, to_uint64 name_len, descriptor.addr, to_uint64 descriptor_len]
      let r := env.IOConnectCallScalarMethod tr conn FOOHID_CREATE input
      let tr := tr ++ [Event.IOConnectCallScalarMethod conn FOOHID_CREATE input r.1 r.2]
      let tr := tr ++ [Event.free deviceName]
      let tr := foohid_close conn tr
      if r.1 ≠ env.KERN_SUCCESS ∨ r.2 ≠ 0 then
        let tr := tr ++ [Event.printf "unable to create device, name: %s\n"]
        (-3, tr ++ [Event.return_foohid_create (-3)])
      else
        (0, tr ++ [Event.return_foohid_create 0])

/-- The function `foohid_send` (lines 149-184). -/
def foohid_send (env : Env) (name : String) (name_len : Int) (descriptor : Buffer)
    (descriptor_len : Int) (tr : Trace) : Int × Trace :=
  let tr := tr ++ [Event.call_foohid_send name name_len descriptor descriptor_len]
  if name_len = 0 ∨ descriptor_len = 0 then
    let tr := tr ++ [Event.printf "Invalid name or descriptor len values\n"]
    (-1, tr ++ [Event.return_foohid_send (-1)])
  else
    let c := foohid_connect env (env.indeterminate_conn tr) tr
    let conn := c.1.2
    let tr := c.2
    if c.1.1 ≠ 0 then
      let tr := tr ++ [Event.printf "Unable to open %s service\n"]
      (-2, tr ++ [Event.return_foohid_send (-2)])
    else
      let deviceName := env.strdup tr name
      let tr := tr ++ [Event.strdup name deviceName]
      let input := [deviceName, to_uint64 name_len, descriptor.addr, to_uint64 descriptor_len]
      let r := env.IOConnectCallScalarMethod tr conn FOOHID_SEND input
      let tr := tr ++ [Event.IOConnectCallScalarMethod conn FOOHID_SEND input r.1 r.2]
      let tr := tr ++ [Event.free deviceName]
      let tr := foohid_close conn tr
      if r.1 ≠ env.KERN_SUCCESS ∨ r.2 ≠ 0 then
        let tr := tr ++ [Event.printf "unable to send hid message\n"]
        (-3, tr ++ [Event.return_foohid_send (-3)])
      else
        (0, tr ++ [Event.return_foohid_send 0])

/-- The function `foohid_destroy` (lines 186-220). -/
def foohid_destroy (env : Env) (name : String) (name_len : Int) (tr : Trace) : Int × Trace :=
  let tr := tr ++ [Event.call_foohid_destroy name name_len]
  if name_len = 0 then
    let tr := tr ++ [Event.printf "Invalid name value\n"]
    (-1, tr ++ [Event.return_foohid_destroy (-1)])
  else
    let c := foohid_connect env (env.indeterminate_conn tr) tr
    let conn := c.1.2
    let tr := c.2
    if c.1.1 ≠ 0 then
      let tr := tr ++ [Event.printf "Unable to open %s service\n"]
      (-2, tr ++ [Event.return_foohid_destroy (-2)])
    else
      let deviceName := env.strdup tr name
      let tr := tr ++ [Event.strdup name deviceName]
      let input := [deviceName, to_uint64 name_len]
      let r := env.IOConnectCallScalarMethod tr conn FOOHID_DESTROY input
      let tr := tr ++ [Event.IOConnectCallScalarMethod conn FOOHID_DESTROY input r.1 r.2]
      let tr := tr ++ [Event.free deviceName]
      let tr := foohid_close conn tr
      if r.1 ≠ env.KERN_SUCCESS ∨ r.2 ≠ 0 then
        let tr := tr ++ [Event.printf "unable to destroy device, name: %s\n"]
        (-3, tr ++ [Event.return_foohid_destroy (-3)])
      else
        (0, tr ++ [Event.return_foohid_destroy 0])

/-! ## Observations on a trace -/

/-- An event is a call into IOKit. -/
def Event.is_iokit : Event → Bool
  | .IOServiceGetMatchingServices _ _ _ => true
  | .IOIteratorNext _ => true
  | .IOServiceOpen _ _ _ => true
  | .IOObjectRelease => true
  | .IOConnectCallScalarMethod _ _ _ _ _ => true
  | .IOServiceClose _ => true
  | _ => false

/-- The IOKit calls of a trace, in order. -/
def iokit_calls (tr : Trace) : Trace := tr.filter Event.is_iokit

def Event.is_connect_attempt : Event → Bool
  | .IOServiceGetMatchingServices _ _ _ => true
  | _ => false

/-- The number of connection attempts: `IOServiceGetMatchingServices` is the
first thing `foohid_connect` does, on every path. -/
def connect_attempts (tr : Trace) : Nat := tr.countP Event.is_connect_attempt

def Event.is_open (env : Env) : Event → Bool
  | .IOServiceOpen _ ret _ => decide (ret = env.KERN_SUCCESS)
  | _ => false

/-- The number of sessions opened: calls of `IOServiceOpen` that returned `KERN_SUCCESS`. -/
def opens (env : Env) (tr : Trace) : Nat := tr.countP (Event.is_open env)

def Event.is_close : Event → Bool
  | .IOServiceClose _ => true
  | _ => false

/-- The number of calls of `IOServiceClose`. -/
def closes (tr : Trace) : Nat := tr.countP Event.is_close

def Event.broker_call : Event → Option (Nat × Int × Nat)
  | .IOConnectCallScalarMethod _ selector _ ret output => some (selector, ret, output)
  | _ => none

/-- The broker calls of a trace: selector, call status and scalar output of each. -/
def broker_calls (tr : Trace) : List (Nat × Int × Nat) := tr.filterMap Event.broker_call

/-- The three device operations. -/
inductive Op where
  | create
  | send
  | destroy
deriving DecidableEq, Repr

def Event.op_called : Event → Option Op
  | .call_foohid_create _ _ _ _ => some Op.create
  | .call_foohid_send _ _ _ _ => some Op.send
  | .call_foohid_destroy _ _ => some Op.destroy
  | _ => none

/-- The device operations issued, in order. -/
def ops_called (tr : Trace) : List Op := tr.filterMap Event.op_called

def Event.op_returned : Event → Option (Op × Int)
  | .return_foohid_create ret => some (Op.create, ret)
  | .return_foohid_send ret => some (Op.send, ret)
  | .return_foohid_destroy ret => some (Op.destroy, ret)
  | _ => none

/-- The device operations that returned, each with its return value, in order. -/
def ops_returned (tr : Trace) : List (Op × Int) := tr.filterMap Event.op_returned

/-! ## `intialise_tracking` -/

/-- The `while (timeout < 200)` loop of `intialise_tracking` (lines 71-82),
with the two `printf` and the `return false` that follow it. -/
def intialise_tracking_loop (env : Env) (timeout : Nat) (tr : Trace) : Bool × Trace :=
  if timeout < 200 then
    let state := env.linuxtrack_get_tracking_state tr
    let tr := tr ++ [Event.linuxtrack_get_tracking_state state]
    let tr := tr ++ [Event.printf "Status: %s\n"]
    if state = env.RUNNING ∨ state = env.PAUSED then
      (true, tr)
    else
      let tr := tr ++ [Event.usleep 100000]
      intialise_tracking_loop env (timeout + 1) tr
  else
    let tr := tr ++ [Event.printf "Linuxtrack doesn't work right!\n"]
    let tr := tr ++ [Event.printf "Make sure it is installed and configured correctly.\n"]
    (false, tr)
termination_by 200 - timeout

/-- The function `intialise_tracking` (lines 60-83). -/
def intialise_tracking (env : Env) (tr : Trace) : Bool × Trace :=
  let state := env.linuxtrack_init tr
  let tr := tr ++ [Event.linuxtrack_init state]
  if state < env.LINUXTRACK_OK then
    let tr := tr ++ [Event.printf "%s\n"]
    (false, tr)
  else
    intialise_tracking_loop env 0 tr

def Event.polled : Event → Option Int
  | .linuxtrack_get_tracking_state state => some state
  | _ => none

/-- The states that the polls of `linuxtrack_get_tracking_state` returned, in order. -/
def polls (tr : Trace) : List Int := tr.filterMap Event.polled

def Event.is_sleep : Event → Bool
  | .usleep _ => true
  | _ => false

/-- The number of calls of `usleep`. -/
def sleeps (tr : Trace) : Nat := tr.countP Event.is_sleep

def Event.slept : Event → Option Nat
  | .usleep usec => some usec
  | _ => none

/-- The arguments of the calls of `usleep`, in microseconds, in order. -/
def sleep_intervals (tr : Trace) : List Nat := tr.filterMap Event.slept

/-- The test `(state == RUNNING) || (state == PAUSED)`. -/
def ready (env : Env) (state : Int) : Prop := state = env.RUNNING ∨ state = env.PAUSED

instance (env : Env) (state : Int) : Decidable (ready env state) := by
  unfold ready; infer_instance

/-! ## `main` -/

/-- One pass through the body of the `for` loop of `main` (lines 253-261). -/
def main_loop_body (env : Env) (tr : Trace) : Trace :=
  let p := env.linuxtrack_get_pose tr
  let tr := tr ++ [Event.linuxtrack_get_pose p]
  let tr := if p > 0 then tr ++ [Event.printf "heading:%f  pitch:%f  roll:%f\n  x:%f  y:%f  z:%f\n"] else tr
  let buttons := to_uint8 0
  let rx := env.rand tr
  let tr := tr ++ [Event.rand rx]
  let x := to_int8 rx
  let ry := env.rand tr
  let tr := tr ++ [Event.rand ry]
  let y := to_int8 ry
  let mouse : mouse_report_t := ⟨buttons, x, y⟩
  (foohid_send env FoohidDevice (to_int (strlen FoohidDevice)) ⟨env.addr_mouse, mouse.bytes⟩
    (to_int sizeof_mouse_report_t) tr).2

/-- The loop `for (int i = 0; i < 10000; ++i)` of `main`, from counter value `i`. -/
def main_loop (env : Env) (i : Nat) (tr : Trace) : Trace :=
  if i < 10000 then
    main_loop env (i + 1) (main_loop_body env tr)
  else
    tr
termination_by 10000 - i

/-- The function `main`; the result is the exit status of the process
(`exit(1)` gives 1, `return 0` gives 0) and the trace. -/
def main (env : Env) (tr : Trace) : Int × Trace :=
  let tr := (foohid_destroy env FoohidDevice (to_int (strlen FoohidDevice)) tr).2
  let c := foohid_create env FoohidDevice (to_int (strlen FoohidDevice))
    ⟨env.addr_report_descriptor, report_descriptor⟩ (to_int sizeof_report_descriptor) tr
  let tr := c.2
  if c.1 ≠ 0 then
    let tr := tr ++ [Event.printf "Unable to create device.\n"]
    (1, tr)
  else
    let tr := main_loop env 0 tr
    let d := foohid_destroy env FoohidDevice (to_int (strlen FoohidDevice)) tr
    let tr := d.2
    if d.1 ≠ 0 then
      let tr := tr ++ [Event.printf "Unable to destroy device before exit.\n"]
      (1, tr)
    else
      (0, tr)

def Event.sent : Event → Option Buffer
  | .call_foohid_send _ _ descriptor _ => some descriptor
  | _ => none

/-- The reports passed to `foohid_send`, in order. -/
def sent_reports (tr : Trace) : List Buffer := tr.filterMap Event.sent

def Event.rand_value : Event → Option Int
  | .rand value => some value
  | _ => none

/-- The values that the calls of `rand` returned, in order. -/
def rand_values (tr : Trace) : List Int := tr.filterMap Event.rand_value

/-! ## The HID short-item grammar -/

/-- Modelled from the spec: the reader of a report descriptor is the broker and
the HID stack behind it, which are not part of this repository; this is the
short-item grammar of the HID standard that the spec refers to (section 6,
"standard HID report-descriptor grammar").  A short item is a prefix byte,
`bSize` in bits 0-1 (0, 1, 2 or 4 data bytes), `bType` in bits 2-3 (0 main,
1 global, 2 local) and `bTag` in bits 4-7, followed by its little-endian data. -/
structure HidItem where
  tag : Nat
  type : Nat
  data : List Nat
deriving DecidableEq, Repr

/-- Modelled from the spec: splitting a byte sequence into short items; `none`
when the prefix of a long item (`0xFE`) occurs or the data of an item is cut
off.  Each step consumes at least one byte, so a fuel of the length of the
sequence is enough. -/
def hid_short_items : Nat → List Nat → Option (List HidItem)
  | _, [] => some []
  | 0, _ :: _ => none
  | fuel + 1, b :: rest =>
    let size := if b % 4 = 3 then 4 else b % 4
    if b = 0xFE ∨ rest.length < size then
      none
    else
      (hid_short_items fuel (rest.drop size)).map
        (fun items => ⟨b / 16, b / 4 % 4, rest.take size⟩ :: items)

/-- Modelled from the spec: the unsigned value of little-endian item data (HID
short-item grammar; the reader is not part of this repository). -/
def hid_unsigned : List Nat → Nat
  | [] => 0
  | b :: rest => b + 256 * hid_unsigned rest

/-- Modelled from the spec: the signed (two's complement) value of
little-endian item data, as LOGICAL_MINIMUM and LOGICAL_MAXIMUM are read. -/
def hid_signed (data : List Nat) : Int :=
  if 2 * hid_unsigned data < 256 ^ data.length then
    (hid_unsigned data : Int)
  else
    (hid_unsigned data : Int) - (256 ^ data.length : Nat)

/-- Modelled from the spec: an INPUT main item together with the global and
local items in force when it occurs. -/
structure HidInput where
  report_count : Nat
  report_size : Nat
  flags : Nat
  usage_page : Nat
  usages : List Nat
  usage_minimum : Option Nat
  usage_maximum : Option Nat
  logical_minimum : Int
  logical_maximum : Int
deriving DecidableEq, Repr

/-- Modelled from the spec: bit 0 of the INPUT flags, Constant (1) or Data (0). -/
def HidInput.is_constant (i : HidInput) : Bool := i.flags % 2 = 1

/-- Modelled from the spec: bit 2 of the INPUT flags, Relative (1) or Absolute (0). -/
def HidInput.is_relative (i : HidInput) : Bool := i.flags / 4 % 2 = 1

/-- Modelled from the spec: the number of bits the item adds to the input
report, REPORT_COUNT times REPORT_SIZE. -/
def HidInput.bits (i : HidInput) : Nat := i.report_count * i.report_size

/-- Modelled from the spec: the state of the descriptor reader (not part of
this repository): the global items, the local items
(cleared by every main item), the depth of open collections and the INPUT
items met so far. -/
structure HidState where
  usage_page : Nat
  logical_minimum : Int
  logical_maximum : Int
  report_size : Nat
  report_count : Nat
  usages : List Nat
  usage_minimum : Option Nat
  usage_maximum : Option Nat
  depth : Nat
  inputs : List HidInput
deriving DecidableEq, Repr

/-- Modelled from the spec: the reader's state before the first item. -/
def HidState.initial : HidState := ⟨0, 0, 0, 0, 0, [], none, none, 0, []⟩

/-- Modelled from the spec: the state after a main item, the local items are cleared. -/
def HidState.clear_locals (s : HidState) : HidState :=
  { s with usages := [], usage_minimum := none, usage_maximum := none }

/-- Modelled from the spec: the effect of one short item; `none` for an item
this reader does not know and for an END_COLLECTION without an open collection. -/
def hid_step (s : HidState) (item : HidItem) : Option HidState :=
  match item.type, item.tag with
  | 0, 8 =>
    let input : HidInput := ⟨s.report_count, s.report_size, hid_unsigned item.data, s.usage_page,
      s.usages, s.usage_minimum, s.usage_maximum, s.logical_minimum, s.logical_maximum⟩
    some { s.clear_locals with inputs := s.inputs ++ [input] }
  | 0, 10 => some { s.clear_locals with depth := s.depth + 1 }
  | 0, 12 => if s.depth = 0 then none else some { s.clear_locals with depth := s.depth - 1 }
  | 1, 0 => some { s with usage_page := hid_unsigned item.data }
  | 1, 1 => some { s with logical_minimum := hid_signed item.data }
  | 1, 2 => some { s with logical_maximum := hid_signed item.data }
  | 1, 7 => some { s with report_size := hid_unsigned item.data }
  | 1, 9 => some { s with report_count := hid_unsigned item.data }
  | 2, 0 => some { s with usages := s.usages ++ [hid_unsigned item.data] }
  | 2, 1 => some { s with usage_minimum := some (hid_unsigned item.data) }
  | 2, 2 => some { s with usage_maximum := some (hid_unsigned item.data) }
  | _, _ => none

/-- Modelled from the spec: the effect of a sequence of short items, in order. -/
def hid_run : HidState → List HidItem → Option HidState
  | s, [] => some s
  | s, item :: items => (hid_step s item).bind (fun s => hid_run s items)

/-- Modelled from the spec: reading a whole descriptor: all bytes are consumed
as short items, every item is known, every collection opened is closed; the
result is the list of INPUT items in order. -/
def hid_decode (bytes : List Nat) : Option (List HidInput) :=
  match (hid_short_items bytes.length bytes).bind (hid_run HidState.initial) with
  | some s => if s.depth = 0 then some s.inputs else none
  | none => none

/-- Modelled from the spec: the first bit and the number of bits of each INPUT
item in the report, from bit `start`; items follow each other without gaps. -/
def hid_bit_ranges : Nat → List HidInput → List (Nat × Nat)
  | _, [] => []
  | start, i :: rest => (start, i.bits) :: hid_bit_ranges (start + i.bits) rest

/-- Modelled from the spec: the fields of one INPUT item, `count` fields of
`size` bits each, from bit `start`. -/
def hid_item_fields (start size : Nat) : Nat → List (Nat × Nat)
  | 0 => []
  | count + 1 => (start, size) :: hid_item_fields (start + size) size count

/-- Modelled from the spec: the first bit and the number of bits of every
field of the report, in order. -/
def hid_field_ranges : Nat → List HidInput → List (Nat × Nat)
  | _, [] => []
  | start, i :: rest =>
    hid_item_fields start i.report_size i.report_count ++ hid_field_ranges (start + i.bits) rest

/-- Modelled from the spec: the value of the field of `size` bits that starts
at bit `first` of a report (bit 0 is the least significant bit of byte 0). -/
def hid_field (report : List Nat) (first size : Nat) : Nat :=
  hid_unsigned report / 2 ^ first % 2 ^ size

/-- The IOKit calls that `foohid_connect` makes: the service lookup, the
enumeration, the opens and the release of the iterator. -/
def Event.is_lookup : Event → Bool
  | .IOServiceGetMatchingServices _ _ _ => true
  | .IOIteratorNext _ => true
  | .IOServiceOpen _ _ _ => true
  | .IOObjectRelease => true
  | _ => false

/-! ## A fake outside world with constant answers -/

/-- A world in which the service lookup succeeds with the given instances,
every open answers `open_status`, every broker call answers `call`, `rand`
answers `rand` and the tracker is in state `state`.  `KERN_SUCCESS` is 0. -/
def fake_env (services : List Nat) (open_status : Int) (call : Int × Nat) (rand : Int)
    (state : Int) : Env where
  KERN_SUCCESS := 0
  IO_OBJECT_NULL := 0
  RAND_MAX := 2147483647
  LINUXTRACK_OK := 0
  RUNNING := 1
  PAUSED := 2
  indeterminate_conn := fun _ => 0
  IOServiceGetMatchingServices := fun _ _ => (0, services)
  IOServiceOpen := fun _ service _ => (open_status, service + 100)
  IOConnectCallScalarMethod := fun _ _ _ _ => call
  strdup := fun _ _ => 4096
  rand := fun _ => rand
  addr_mouse := 8192
  addr_report_descriptor := 12288
  linuxtrack_init := fun _ => 0
  linuxtrack_get_tracking_state := fun _ => state
  linuxtrack_get_pose := fun _ => 0

/-- The broker is registered and accepts everything. -/
def env_ok : Env := fake_env [7] 0 (0, 0) 0 1

/-- No broker instance is registered: the lookup succeeds and the iterator is empty. -/
def env_absent : Env := fake_env [] 0 (0, 0) 0 1

/-- Two instances are registered and both refuse the open. -/
def env_refused : Env := fake_env [7, 8] 5 (0, 0) 0 1

/-- The lookup of the service itself fails. -/
def env_lookup_fails : Env :=
  { fake_env [] 0 (0, 0) 0 1 with IOServiceGetMatchingServices := fun _ _ => (5, []) }

/-- The broker is registered; it accepts CREATE and DESTROY and rejects SEND
with a non-zero scalar output. -/
def env_send_rejected : Env :=
  { fake_env [7] 0 (0, 0) 0 1 with
    IOConnectCallScalarMethod := fun _ _ selector _ => if selector = FOOHID_SEND then (0, 1) else (0, 0) }

/-- The tracker never leaves the state 0, which is neither `RUNNING` nor `PAUSED`. -/
def env_never : Env := fake_env [7] 0 (0, 0) 0 0

/-- The tracker answers `RUNNING` to the third poll and 0 to every other. -/
def env_third : Env :=
  { fake_env [7] 0 (0, 0) 0 0 with
    linuxtrack_get_tracking_state := fun t => if (polls t).length = 2 then 1 else 0 }

/-- Both calls of `rand` answer 128. -/
def env_rand128 : Env := fake_env [7] 0 (0, 0) 128 1

/-! ## Lemmas on `foohid_connect` -/

theorem foohid_connect_loop_ret (env : Env) (iterator : List Nat) (conn : Nat) (tr : Trace) :
    (foohid_connect_loop env iterator conn tr).1.1 = 0 := by
  induction iterator generalizing conn tr with
  | nil => simp [foohid_connect_loop]
  | cons service iterator ih =>
    simp only [foohid_connect_loop]
    split
    · split
      · rfl
      · exact ih _ _
    · rfl

theorem foohid_connect_loop_appends (env : Env) (iterator : List Nat) (conn : Nat) (tr : Trace) :
    ∃ evs, (foohid_connect_loop env iterator conn tr).2 = tr ++ evs ∧
      ∀ e ∈ evs, e.is_lookup = true := by
  induction iterator generalizing conn tr with
  | nil =>
    refine ⟨[Event.IOIteratorNext env.IO_OBJECT_NULL, Event.IOObjectRelease], ?_, ?_⟩
    · simp [foohid_connect_loop]
    · simp [Event.is_lookup]
  | cons service iterator ih =>
    simp only [foohid_connect_loop]
    split
    · split
      · refine ⟨[Event.IOIteratorNext service, Event.IOServiceOpen service
              (env.IOServiceOpen (tr ++ [Event.IOIteratorNext service]) service conn).1
              (env.IOServiceOpen (tr ++ [Event.IOIteratorNext service]) service conn).2,
            Event.IOObjectRelease], ?_, ?_⟩
        · simp
        · simp [Event.is_lookup]
      · obtain ⟨evs, h, hall⟩ := ih (env.IOServiceOpen (tr ++ [Event.IOIteratorNext service]) service conn).2
          (tr ++ [Event.IOIteratorNext service] ++
            [Event.IOServiceOpen service
              (env.IOServiceOpen (tr ++ [Event.IOIteratorNext service]) service conn).1
              (env.IOServiceOpen (tr ++ [Event.IOIteratorNext service]) service conn).2])
        refine ⟨[Event.IOIteratorNext service, Event.IOServiceOpen service
              (env.IOServiceOpen (tr ++ [Event.IOIteratorNext service]) service conn).1
              (env.IOServiceOpen (tr ++ [Event.IOIteratorNext service]) service conn).2] ++ evs,
            ?_, ?_⟩
        · rw [h]; simp
        · intro e he
          simp only [List.mem_append, List.mem_cons, List.mem_singleton, List.not_mem_nil,
            or_false] at he
          rcases he with (rfl | rfl) | he
          · rfl
          · rfl
          · exact hall e he
    · refine ⟨[Event.IOIteratorNext service, Event.IOObjectRelease], ?_, ?_⟩
      · simp
      · simp [Event.is_lookup]

theorem foohid_connect_appends (env : Env) (conn : Nat) (tr : Trace) :
    ∃ evs, (foohid_connect env conn tr).2 = tr ++ evs ∧ ∀ e ∈ evs, e.is_lookup = true := by
  unfold foohid_connect
  simp only []
  split
  · exact ⟨[Event.IOServiceGetMatchingServices FoohidService _ _], rfl, by simp [Event.is_lookup]⟩
  · obtain ⟨evs, h, hall⟩ := foohid_connect_loop_appends env
      (env.IOServiceGetMatchingServices tr FoohidService).2 conn
      (tr ++ [Event.IOServiceGetMatchingServices FoohidService
        (env.IOServiceGetMatchingServices tr FoohidService).1
        (env.IOServiceGetMatchingServices tr FoohidService).2])
    refine ⟨Event.IOServiceGetMatchingServices FoohidService
        (env.IOServiceGetMatchingServices tr FoohidService).1
        (env.IOServiceGetMatchingServices tr FoohidService).2 :: evs, ?_, ?_⟩
    · rw [h]; simp
    · intro e he
      rcases List.mem_cons.1 he with rfl | he
      · rfl
      · exact hall e he

/-- An observation that ignores the calls of `foohid_connect` sees the same before and after it. -/
theorem foohid_connect_filterMap {α : Type} (f : Event → Option α)
    (hf : ∀ e, e.is_lookup = true → f e = none) (env : Env) (conn : Nat) (tr : Trace) :
    (foohid_connect env conn tr).2.filterMap f = tr.filterMap f := by
  obtain ⟨evs, h, hall⟩ := foohid_connect_appends env conn tr
  rw [h, List.filterMap_append]
  have : evs.filterMap f = [] := by
    rw [List.filterMap_eq_nil_iff]
    exact fun e he => hf e (hall e he)
  rw [this, List.append_nil]

theorem foohid_connect_countP (p : Event → Bool)
    (hp : ∀ e, e.is_lookup = true → p e = false) (env : Env) (conn : Nat) (tr : Trace) :
    (foohid_connect env conn tr).2.countP p = tr.countP p := by
  obtain ⟨evs, h, hall⟩ := foohid_connect_appends env conn tr
  rw [h, List.countP_append]
  have : evs.countP p = 0 := by
    rw [List.countP_eq_zero]
    intro e he
    simp [hp e (hall e he)]
  omega

theorem op_called_lookup (e : Event) (h : e.is_lookup = true) : e.op_called = none := by
  cases e <;> simp_all [Event.is_lookup, Event.op_called]

theorem op_returned_lookup (e : Event) (h : e.is_lookup = true) : e.op_returned = none := by
  cases e <;> simp_all [Event.is_lookup, Event.op_returned]

theorem sent_lookup (e : Event) (h : e.is_lookup = true) : e.sent = none := by
  cases e <;> simp_all [Event.is_lookup, Event.sent]

theorem rand_value_lookup (e : Event) (h : e.is_lookup = true) : e.rand_value = none := by
  cases e <;> simp_all [Event.is_lookup, Event.rand_value]

theorem is_close_lookup (e : Event) (h : e.is_lookup = true) : e.is_close = false := by
  cases e <;> simp_all [Event.is_lookup, Event.is_close]

/-! ## Lemmas on the three operations -/

theorem foohid_send_view (env : Env) (name : String) (name_len : Int) (descriptor : Buffer)
    (descriptor_len : Int) (tr : Trace) :
    ops_called (foohid_send env name name_len descriptor descriptor_len tr).2
      = ops_called tr ++ [Op.send] ∧
    ops_returned (foohid_send env name name_len descriptor descriptor_len tr).2
      = ops_returned tr ++
          [(Op.send, (foohid_send env name name_len descriptor descriptor_len tr).1)] ∧
    sent_reports (foohid_send env name name_len descriptor descriptor_len tr).2
      = sent_reports tr ++ [descriptor] ∧
    rand_values (foohid_send env name name_len descriptor descriptor_len tr).2
      = rand_values tr := by
  unfold foohid_send
  simp only [foohid_close, ops_called, ops_returned, sent_reports, rand_values]
  split
  · simp [Event.op_called, Event.op_returned, Event.sent, Event.rand_value]
  · split
    · simp [Event.op_called, Event.op_returned, Event.sent, Event.rand_value,
        foohid_connect_filterMap _ op_called_lookup, foohid_connect_filterMap _ op_returned_lookup,
        foohid_connect_filterMap _ sent_lookup, foohid_connect_filterMap _ rand_value_lookup]
    · split
      · simp [Event.op_called, Event.op_returned, Event.sent, Event.rand_value,
          foohid_connect_filterMap _ op_called_lookup, foohid_connect_filterMap _ op_returned_lookup,
          foohid_connect_filterMap _ sent_lookup, foohid_connect_filterMap _ rand_value_lookup]
      · simp [Event.op_called, Event.op_returned, Event.sent, Event.rand_value,
          foohid_connect_filterMap _ op_called_lookup, foohid_connect_filterMap _ op_returned_lookup,
          foohid_connect_filterMap _ sent_lookup, foohid_connect_filterMap _ rand_value_lookup]

theorem foohid_create_view (env : Env) (name : String) (name_len : Int) (descriptor : Buffer)
    (descriptor_len : Int) (tr : Trace) :
    ops_called (foohid_create env name name_len descriptor descriptor_len tr).2
      = ops_called tr ++ [Op.create] ∧
    ops_returned (foohid_create env name name_len descriptor descriptor_len tr).2
      = ops_returned tr ++
          [(Op.create, (foohid_create env name name_len descriptor descriptor_len tr).1)] := by
  unfold foohid_create
  simp only [foohid_close, ops_called, ops_returned]
  split
  · simp [Event.op_called, Event.op_returned]
  · split
    · simp [Event.op_called, Event.op_returned,
        foohid_connect_filterMap _ op_called_lookup, foohid_connect_filterMap _ op_returned_lookup]
    · split
      · simp [Event.op_called, Event.op_returned,
          foohid_connect_filterMap _ op_called_lookup, foohid_connect_filterMap _ op_returned_lookup]
      · simp [Event.op_called, Event.op_returned,
          foohid_connect_filterMap _ op_called_lookup, foohid_connect_filterMap _ op_returned_lookup]

theorem foohid_destroy_view (env : Env) (name : String) (name_len : Int) (tr : Trace) :
    ops_called (foohid_destroy env name name_len tr).2 = ops_called tr ++ [Op.destroy] ∧
    ops_returned (foohid_destroy env name name_len tr).2
      = ops_returned tr ++ [(Op.destroy, (foohid_destroy env name name_len tr).1)] := by
  unfold foohid_destroy
  simp only [foohid_close, ops_called, ops_returned]
  split
  · simp [Event.op_called, Event.op_returned]
  · split
    · simp [Event.op_called, Event.op_returned,
        foohid_connect_filterMap _ op_called_lookup, foohid_connect_filterMap _ op_returned_lookup]
    · split
      · simp [Event.op_called, Event.op_returned,
          foohid_connect_filterMap _ op_called_lookup, foohid_connect_filterMap _ op_returned_lookup]
      · simp [Event.op_called, Event.op_returned,
          foohid_connect_filterMap _ op_called_lookup, foohid_connect_filterMap _ op_returned_lookup]

/-! ## Lemmas on `main` -/

theorem ops_called_printf (t : Trace) (m : String) :
    ops_called (t ++ [Event.printf m]) = ops_called t := by
  simp [ops_called, Event.op_called]

theorem ops_returned_printf (t : Trace) (m : String) :
    ops_returned (t ++ [Event.printf m]) = ops_returned t := by
  simp [ops_returned, Event.op_returned]


theorem foohid_send_after (env : Env) (name : String) (name_len : Int) (descriptor : Buffer)
    (descriptor_len : Int) (t tr : Trace)
    (h1 : ops_called t = ops_called tr) (h2 : ops_returned t = ops_returned tr) :
    ops_called (foohid_send env name name_len descriptor descriptor_len t).2
      = ops_called tr ++ [Op.send] ∧
    ∃ s, (∃ buf u, s = (foohid_send env name name_len buf descriptor_len u).1) ∧
      ops_returned (foohid_send env name name_len descriptor descriptor_len t).2
        = ops_returned tr ++ [(Op.send, s)] :=
  ⟨by rw [(foohid_send_view _ _ _ _ _ _).1, h1],
   (foohid_send env name name_len descriptor descriptor_len t).1,
   ⟨descriptor, t, rfl⟩,
   by rw [(foohid_send_view _ _ _ _ _ _).2.1, h2]⟩

/-- One pass of the streaming loop issues one send; its return value is that
of a `foohid_send` on the device name with a report of `sizeof(mouse_report_t)` bytes. -/
theorem main_loop_body_view (env : Env) (tr : Trace) :
    ops_called (main_loop_body env tr) = ops_called tr ++ [Op.send] ∧
    ∃ s, (∃ buf u, s = (foohid_send env FoohidDevice (to_int (strlen FoohidDevice)) buf
        (to_int sizeof_mouse_report_t) u).1) ∧
      ops_returned (main_loop_body env tr) = ops_returned tr ++ [(Op.send, s)] := by
  unfold main_loop_body
  simp only []
  apply foohid_send_after
  · split <;> simp [ops_called, Event.op_called]
  · split <;> simp [ops_returned, Event.op_returned]

/-- The streaming loop from counter value `i`, with `n` passes left, issues
exactly `n` sends, whatever they return. -/
theorem main_loop_view (env : Env) (n : Nat) :
    ∀ (i : Nat) (tr : Trace), i + n = 10000 →
      ops_called (main_loop env i tr) = ops_called tr ++ List.replicate n Op.send ∧
      ∃ ss : List Int, ss.length = n ∧
        (∀ s ∈ ss, ∃ buf u, s = (foohid_send env FoohidDevice (to_int (strlen FoohidDevice)) buf
          (to_int sizeof_mouse_report_t) u).1) ∧
        ops_returned (main_loop env i tr)
          = ops_returned tr ++ ss.map (fun s => (Op.send, s)) := by
  induction n with
  | zero =>
    intro i tr h
    have hi : ¬ i < 10000 := by omega
    unfold main_loop
    simp only [hi, if_false]
    exact ⟨by simp, [], rfl, by simp, by simp⟩
  | succ n ih =>
    intro i tr h
    have hi : i < 10000 := by omega
    unfold main_loop
    simp only [hi, if_true]
    obtain ⟨hc, ss, hlen, hprov, hr⟩ := ih (i + 1) (main_loop_body env tr) (by omega)
    obtain ⟨hbc, s, hs, hbr⟩ := main_loop_body_view env tr
    refine ⟨?_, s :: ss, by simp [hlen], ?_, ?_⟩
    · rw [hc, hbc, List.replicate_succ]; simp
    · intro x hx
      rcases List.mem_cons.1 hx with rfl | hx
      · exact hs
      · exact hprov x hx
    · rw [hr, hbr]; simp

/-- The shape of every run of `main`: what was called, what it returned, and
the exit status.  `d0`, `c`, `ss`, `d1` are the return values of the first
destroy, the create, the sends and the final destroy. -/
theorem main_shape (env : Env) (tr : Trace) :
    (∃ (d0 c : Int), c ≠ 0 ∧
      (∃ u, d0 = (foohid_destroy env FoohidDevice (to_int (strlen FoohidDevice)) u).1) ∧
      (∃ u, c = (foohid_create env FoohidDevice (to_int (strlen FoohidDevice))
        ⟨env.addr_report_descriptor, report_descriptor⟩ (to_int sizeof_report_descriptor) u).1) ∧
      ops_called (main env tr).2 = ops_called tr ++ [Op.destroy, Op.create] ∧
      ops_returned (main env tr).2 = ops_returned tr ++ [(Op.destroy, d0), (Op.create, c)] ∧
      (main env tr).1 = 1) ∨
    (∃ (d0 : Int) (ss : List Int) (d1 : Int), ss.length = 10000 ∧
      (∃ u, d0 = (foohid_destroy env FoohidDevice (to_int (strlen FoohidDevice)) u).1) ∧
      (∀ s ∈ ss, ∃ buf u, s = (foohid_send env FoohidDevice (to_int (strlen FoohidDevice)) buf
        (to_int sizeof_mouse_report_t) u).1) ∧
      (∃ u, d1 = (foohid_destroy env FoohidDevice (to_int (strlen FoohidDevice)) u).1) ∧
      ops_called (main env tr).2
        = ops_called tr ++ [Op.destroy, Op.create] ++ List.replicate 10000 Op.send ++ [Op.destroy] ∧
      ops_returned (main env tr).2
        = ops_returned tr ++ [(Op.destroy, d0), (Op.create, 0)]
            ++ ss.map (fun s => (Op.send, s)) ++ [(Op.destroy, d1)] ∧
      (main env tr).1 = if d1 ≠ 0 then 1 else 0) := by
  have hd0 := foohid_destroy_view env FoohidDevice (to_int (strlen FoohidDevice)) tr
  have hc := foohid_create_view env FoohidDevice (to_int (strlen FoohidDevice))
    ⟨env.addr_report_descriptor, report_descriptor⟩ (to_int sizeof_report_descriptor)
    (foohid_destroy env FoohidDevice (to_int (strlen FoohidDevice)) tr).2
  have hcp : ∃ u, (foohid_create env FoohidDevice (to_int (strlen FoohidDevice))
      ⟨env.addr_report_descriptor, report_descriptor⟩ (to_int sizeof_report_descriptor)
      (foohid_destroy env FoohidDevice (to_int (strlen FoohidDevice)) tr).2).1
      = (foohid_create env FoohidDevice (to_int (strlen FoohidDevice))
        ⟨env.addr_report_descriptor, report_descriptor⟩ (to_int sizeof_report_descriptor) u).1 :=
    ⟨_, rfl⟩
  have hd0p : ∃ u, (foohid_destroy env FoohidDevice (to_int (strlen FoohidDevice)) tr).1
      = (foohid_destroy env FoohidDevice (to_int (strlen FoohidDevice)) u).1 := ⟨_, rfl⟩
  unfold main
  simp only []
  generalize foohid_destroy env FoohidDevice (to_int (strlen FoohidDevice)) tr = D0
    at hd0 hc hcp hd0p ⊢
  generalize foohid_create env _ _ _ _ D0.2 = C at hc hcp ⊢
  by_cases h : C.1 = 0
  · right
    simp only [h, ne_eq, not_true_eq_false, if_false]
    obtain ⟨hlc, ss, hlen, hprov, hlr⟩ := main_loop_view env 10000 0 C.2 (by omega)
    have hd1 := foohid_destroy_view env FoohidDevice (to_int (strlen FoohidDevice))
      (main_loop env 0 C.2)
    have hd1p : ∃ u, (foohid_destroy env FoohidDevice (to_int (strlen FoohidDevice))
        (main_loop env 0 C.2)).1
        = (foohid_destroy env FoohidDevice (to_int (strlen FoohidDevice)) u).1 := ⟨_, rfl⟩
    generalize foohid_destroy env _ _ (main_loop env 0 C.2) = D1 at hd1 hd1p ⊢
    refine ⟨D0.1, ss, D1.1, hlen, hd0p, hprov, hd1p, ?_, ?_, ?_⟩
    · have e : ops_called D1.2 = ops_called tr ++ [Op.destroy, Op.create]
          ++ List.replicate 10000 Op.send ++ [Op.destroy] := by
        rw [hd1.1, hlc, hc.1, hd0.1]
        simp only [List.append_assoc, List.cons_append, List.nil_append]
      split
      · rw [ops_called_printf, e]
      · exact e
    · have e : ops_returned D1.2 = ops_returned tr ++ [(Op.destroy, D0.1), (Op.create, 0)]
          ++ ss.map (fun s => (Op.send, s)) ++ [(Op.destroy, D1.1)] := by
        rw [hd1.2, hlr, hc.2, hd0.2, h]
        simp only [List.append_assoc, List.cons_append, List.nil_append]
      split
      · rw [ops_returned_printf, e]
      · exact e
    · split <;> rfl
  · left
    simp only [h, ne_eq, not_false_eq_true, if_true]
    refine ⟨D0.1, C.1, h, hd0p, hcp, ?_, ?_, trivial⟩
    · rw [ops_called_printf, hc.1, hd0.1]
      simp only [List.append_assoc, List.cons_append, List.nil_append]
    · rw [ops_returned_printf, hc.2, hd0.2]
      simp only [List.append_assoc, List.cons_append, List.nil_append]

/-! ## Lemmas on `intialise_tracking` -/

theorem polls_append (t u : Trace) : polls (t ++ u) = polls t ++ polls u := by
  simp [polls]

theorem sleeps_append (t u : Trace) : sleeps (t ++ u) = sleeps t + sleeps u := by
  simp [sleeps]

/-- The loop from counter value `timeout`, with `n` passes left: either all
`n` polls are not ready and it gives up, or it stops at the first ready poll. -/
theorem intialise_tracking_loop_view (env : Env) (n : Nat) :
    ∀ (timeout : Nat) (tr : Trace), timeout + n = 200 →
      ∃ ps : List Int,
        polls (intialise_tracking_loop env timeout tr).2 = polls tr ++ ps ∧
        (∀ s ∈ ps, ∃ t, s = env.linuxtrack_get_tracking_state t) ∧
        (((intialise_tracking_loop env timeout tr).1 = false ∧ ps.length = n ∧
            sleeps (intialise_tracking_loop env timeout tr).2 = sleeps tr + n ∧
            ∀ s ∈ ps, ¬ ready env s) ∨
         ((intialise_tracking_loop env timeout tr).1 = true ∧ ps.length ≤ n ∧
            sleeps (intialise_tracking_loop env timeout tr).2 + 1 = sleeps tr + ps.length ∧
            ∃ front last, ps = front ++ [last] ∧ ready env last ∧
              ∀ s ∈ front, ¬ ready env s)) := by
  induction n with
  | zero =>
    intro timeout tr h
    have ht : ¬ timeout < 200 := by omega
    unfold intialise_tracking_loop
    simp only [ht, if_false]
    refine ⟨[], ?_, ?_, Or.inl ⟨?_, rfl, ?_, ?_⟩⟩
    · simp [polls, Event.polled]
    · simp
    · trivial
    · simp [sleeps, Event.is_sleep]
    · simp
  | succ n ih =>
    intro timeout tr h
    have ht : timeout < 200 := by omega
    unfold intialise_tracking_loop
    simp only [ht, if_true]
    by_cases hr : env.linuxtrack_get_tracking_state tr = env.RUNNING ∨
        env.linuxtrack_get_tracking_state tr = env.PAUSED
    · simp only [hr, if_true]
      refine ⟨[env.linuxtrack_get_tracking_state tr], ?_, ?_, Or.inr ⟨?_, ?_, ?_,
        [], env.linuxtrack_get_tracking_state tr, rfl, hr, ?_⟩⟩
      · simp [polls, Event.polled]
      · intro s hs
        exact ⟨tr, List.mem_singleton.1 hs⟩
      · trivial
      · simp
      · simp [sleeps, Event.is_sleep]
      · simp
    · simp only [hr, if_false]
      obtain ⟨ps, hp, horacle, hcase⟩ := ih (timeout + 1)
        (tr ++ [Event.linuxtrack_get_tracking_state (env.linuxtrack_get_tracking_state tr)]
          ++ [Event.printf "Status: %s\n"] ++ [Event.usleep 100000]) (by omega)
      have hp0 : polls (tr ++ [Event.linuxtrack_get_tracking_state
            (env.linuxtrack_get_tracking_state tr)]
          ++ [Event.printf "Status: %s\n"] ++ [Event.usleep 100000])
          = polls tr ++ [env.linuxtrack_get_tracking_state tr] := by
        simp [polls, Event.polled]
      have hs0 : sleeps (tr ++ [Event.linuxtrack_get_tracking_state
            (env.linuxtrack_get_tracking_state tr)]
          ++ [Event.printf "Status: %s\n"] ++ [Event.usleep 100000])
          = sleeps tr + 1 := by
        simp [sleeps, Event.is_sleep]
      refine ⟨env.linuxtrack_get_tracking_state tr :: ps, ?_, ?_, ?_⟩
      · rw [hp, hp0]; simp
      · intro s hs
        rcases List.mem_cons.1 hs with rfl | hs
        · exact ⟨tr, rfl⟩
        · exact horacle s hs
      · rcases hcase with ⟨h1, h2, h3, h4⟩ | ⟨h1, h2, h3, front, last, h4, h5, h6⟩
        · refine Or.inl ⟨h1, by simp only [List.length_cons, h2], by rw [h3, hs0]; omega, ?_⟩
          intro s hs
          rcases List.mem_cons.1 hs with rfl | hs
          · exact hr
          · exact h4 s hs
        · refine Or.inr ⟨h1, by simp only [List.length_cons]; omega,
            by rw [hs0] at h3; simp only [List.length_cons]; omega,
            env.linuxtrack_get_tracking_state tr :: front, last, by simp [h4], h5, ?_⟩
          intro s hs
          rcases List.mem_cons.1 hs with rfl | hs
          · exact hr
          · exact h6 s hs

/-- Every call of `usleep` is counted by `sleeps` and listed by `sleep_intervals`. -/
theorem sleeps_eq_length (tr : Trace) : sleeps tr = (sleep_intervals tr).length := by
  induction tr with
  | nil => rfl
  | cons e tr ih =>
    have h1 : sleeps (e :: tr) = sleeps [e] + sleeps tr := sleeps_append [e] tr
    have h2 : sleep_intervals (e :: tr) = sleep_intervals [e] ++ sleep_intervals tr := by
      simp [sleep_intervals, List.filterMap_cons]
      cases e <;> simp [Event.slept]
    rw [h1, h2, List.length_append, ih]
    cases e <;> simp [sleeps, sleep_intervals, Event.is_sleep, Event.slept]

/-- Every `usleep` of the loop has the argument 100000 (microseconds). -/
theorem intialise_tracking_loop_intervals (env : Env) (n : Nat) :
    ∀ (timeout : Nat) (tr : Trace), timeout + n = 200 →
      ∃ ivs : List Nat,
        sleep_intervals (intialise_tracking_loop env timeout tr).2 = sleep_intervals tr ++ ivs ∧
        ∀ x ∈ ivs, x = 100000 := by
  induction n with
  | zero =>
    intro timeout tr h
    have ht : ¬ timeout < 200 := by omega
    unfold intialise_tracking_loop
    simp only [ht, if_false]
    exact ⟨[], by simp [sleep_intervals, Event.slept], by simp⟩
  | succ n ih =>
    intro timeout tr h
    have ht : timeout < 200 := by omega
    unfold intialise_tracking_loop
    simp only [ht, if_true]
    by_cases hr : env.linuxtrack_get_tracking_state tr = env.RUNNING ∨
        env.linuxtrack_get_tracking_state tr = env.PAUSED
    · simp only [hr, if_true]
      exact ⟨[], by simp [sleep_intervals, Event.slept], by simp⟩
    · simp only [hr, if_false]
      obtain ⟨ivs, hi, hall⟩ := ih (timeout + 1)
        (tr ++ [Event.linuxtrack_get_tracking_state (env.linuxtrack_get_tracking_state tr)]
          ++ [Event.printf "Status: %s\n"] ++ [Event.usleep 100000]) (by omega)
      have hi0 : sleep_intervals (tr ++ [Event.linuxtrack_get_tracking_state
            (env.linuxtrack_get_tracking_state tr)]
          ++ [Event.printf "Status: %s\n"] ++ [Event.usleep 100000])
          = sleep_intervals tr ++ [100000] := by
        simp [sleep_intervals, Event.slept]
      refine ⟨100000 :: ivs, ?_, ?_⟩
      · rw [hi, hi0]; simp
      · intro x hx
        rcases List.mem_cons.1 hx with rfl | hx
        · rfl
        · exact hall x hx

/-- The calls of `usleep` made by `intialise_tracking` all have the argument 100000. -/
theorem intialise_tracking_intervals (env : Env) (tr : Trace) :
    sleep_intervals (intialise_tracking env tr).2
      = sleep_intervals tr ++
          List.replicate (sleeps (intialise_tracking env tr).2 - sleeps tr) 100000 := by
  have e0 : sleep_intervals (tr ++ [Event.linuxtrack_init (env.linuxtrack_init tr)])
      = sleep_intervals tr := by
    simp [sleep_intervals, Event.slept]
  have key : ∃ ivs : List Nat,
      sleep_intervals (intialise_tracking env tr).2 = sleep_intervals tr ++ ivs ∧
      ∀ x ∈ ivs, x = 100000 := by
    unfold intialise_tracking
    simp only []
    split
    · exact ⟨[], by simp [sleep_intervals, Event.slept], by simp⟩
    · obtain ⟨ivs, hi, hall⟩ := intialise_tracking_loop_intervals env 200 0
        (tr ++ [Event.linuxtrack_init (env.linuxtrack_init tr)]) rfl
      exact ⟨ivs, by rw [hi, e0], hall⟩
  obtain ⟨ivs, hi, hall⟩ := key
  have hlen : sleeps (intialise_tracking env tr).2 - sleeps tr = ivs.length := by
    rw [sleeps_eq_length, sleeps_eq_length, hi, List.length_append]
    omega
  rw [hlen, hi]
  congr 1
  rw [List.eq_replicate_iff]
  exact ⟨rfl, hall⟩

theorem mem_of_getElem?_some {α : Type} (l : List α) (i : Nat) (a : α) (h : l[i]? = some a) :
    a ∈ l := by
  rw [List.getElem?_eq_some] at h
  obtain ⟨hi, rfl⟩ := h
  exact List.getElem_mem hi

/-! ## Argument validation -/

/-- C1: when the name length is 0 (or, for create and send, the descriptor or
report length is 0), each of `foohid_create`, `foohid_send`, `foohid_destroy`
returns -1 and makes no connection attempt, no broker call and no close (no
IOKit call at all), whatever the other arguments and the outside world are. -/
theorem invalid_argument_without_broker (env : Env) (name : String) (name_len : Int)
    (descriptor : Buffer) (descriptor_len : Int) (tr : Trace) :
    ((name_len = 0 ∨ descriptor_len = 0) →
      (foohid_create env name name_len descriptor descriptor_len tr).1 = -1 ∧
      connect_attempts (foohid_create env name name_len descriptor descriptor_len tr).2
        = connect_attempts tr ∧
      broker_calls (foohid_create env name name_len descriptor descriptor_len tr).2
        = broker_calls tr ∧
      closes (foohid_create env name name_len descriptor descriptor_len tr).2 = closes tr ∧
      iokit_calls (foohid_create env name name_len descriptor descriptor_len tr).2
        = iokit_calls tr) ∧
    ((name_len = 0 ∨ descriptor_len = 0) →
      (foohid_send env name name_len descriptor descriptor_len tr).1 = -1 ∧
      connect_attempts (foohid_send env name name_len descriptor descriptor_len tr).2
        = connect_attempts tr ∧
      broker_calls (foohid_send env name name_len descriptor descriptor_len tr).2
        = broker_calls tr ∧
      closes (foohid_send env name name_len descriptor descriptor_len tr).2 = closes tr ∧
      iokit_calls (foohid_send env name name_len descriptor descriptor_len tr).2
        = iokit_calls tr) ∧
    (name_len = 0 →
      (foohid_destroy env name name_len tr).1 = -1 ∧
      connect_attempts (foohid_destroy env name name_len tr).2 = connect_attempts tr ∧
      broker_calls (foohid_destroy env name name_len tr).2 = broker_calls tr ∧
      closes (foohid_destroy env name name_len tr).2 = closes tr ∧
      iokit_calls (foohid_destroy env name name_len tr).2 = iokit_calls tr) := by
  refine ⟨fun h => ?_, fun h => ?_, fun h => ?_⟩
  · simp [foohid_create, h, connect_attempts, broker_calls, closes, iokit_calls,
      Event.is_connect_attempt, Event.broker_call, Event.is_close, Event.is_iokit]
  · simp [foohid_send, h, connect_attempts, broker_calls, closes, iokit_calls,
      Event.is_connect_attempt, Event.broker_call, Event.is_close, Event.is_iokit]
  · simp [foohid_destroy, h, connect_attempts, broker_calls, closes, iokit_calls,
      Event.is_connect_attempt, Event.broker_call, Event.is_close, Event.is_iokit]

/-- C1 at concrete inputs: an empty name for create and destroy, an empty
report for send, against a broker that would accept everything. -/
theorem invalid_argument_without_broker_witness :
    (foohid_create env_ok "VGP" 0 ⟨12288, report_descriptor⟩ 50 []).1 = -1 ∧
    iokit_calls (foohid_create env_ok "VGP" 0 ⟨12288, report_descriptor⟩ 50 []).2 = [] ∧
    (foohid_send env_ok "VGP" 3 ⟨8192, [5, 251, 120]⟩ 0 []).1 = -1 ∧
    iokit_calls (foohid_send env_ok "VGP" 3 ⟨8192, [5, 251, 120]⟩ 0 []).2 = [] ∧
    (foohid_destroy env_ok "VGP" 0 []).1 = -1 ∧
    iokit_calls (foohid_destroy env_ok "VGP" 0 []).2 = [] :=
  ⟨((invalid_argument_without_broker env_ok "VGP" 0 ⟨12288, report_descriptor⟩ 50 []).1
      (Or.inl rfl)).1,
   ((invalid_argument_without_broker env_ok "VGP" 0 ⟨12288, report_descriptor⟩ 50 []).1
      (Or.inl rfl)).2.2.2.2,
   ((invalid_argument_without_broker env_ok "VGP" 3 ⟨8192, [5, 251, 120]⟩ 0 []).2.1
      (Or.inr rfl)).1,
   ((invalid_argument_without_broker env_ok "VGP" 3 ⟨8192, [5, 251, 120]⟩ 0 []).2.1
      (Or.inr rfl)).2.2.2.2,
   ((invalid_argument_without_broker env_ok "VGP" 0 ⟨12288, report_descriptor⟩ 50 []).2.2
      rfl).1,
   ((invalid_argument_without_broker env_ok "VGP" 0 ⟨12288, report_descriptor⟩ 50 []).2.2
      rfl).2.2.2.2⟩

/-! ## Connection failure -/

/-- Once the service lookup has succeeded, `foohid_connect` returns 0, whether
or not any instance accepted the open. -/
theorem foohid_connect_ret_of_lookup (env : Env) (conn : Nat) (tr : Trace)
    (h : (env.IOServiceGetMatchingServices tr FoohidService).1 = env.KERN_SUCCESS) :
    (foohid_connect env conn tr).1.1 = 0 := by
  unfold foohid_connect
  simp only [h, ne_eq, not_true_eq_false, if_false]
  exact foohid_connect_loop_ret env _ _ _

/-- C2, the code at the failing inputs: with an empty service iterator, and
with two instances that both refuse the open, no session is opened and
`foohid_connect` still returns 0; `foohid_create` then does not return -2 but
goes on to call the broker on the connection it never got, and returns 0 when
that call answers success.  Only a failed service lookup makes `foohid_create`
return -2. -/
theorem foohid_connect_success_without_session :
    ((foohid_connect env_absent 0 []).1.1 = 0 ∧
      opens env_absent (foohid_connect env_absent 0 []).2 = 0) ∧
    ((foohid_connect env_refused 0 []).1.1 = 0 ∧
      opens env_refused (foohid_connect env_refused 0 []).2 = 0) ∧
    ((foohid_create env_absent "VGP" 3 ⟨12288, report_descriptor⟩ 50 []).1 = 0 ∧
      broker_calls (foohid_create env_absent "VGP" 3 ⟨12288, report_descriptor⟩ 50 []).2
        = [(FOOHID_CREATE, 0, 0)]) ∧
    ((foohid_create env_refused "VGP" 3 ⟨12288, report_descriptor⟩ 50 []).1 = 0 ∧
      broker_calls (foohid_create env_refused "VGP" 3 ⟨12288, report_descriptor⟩ 50 []).2
        = [(FOOHID_CREATE, 0, 0)]) ∧
    ((foohid_create env_lookup_fails "VGP" 3 ⟨12288, report_descriptor⟩ 50 []).1 = -2 ∧
      broker_calls (foohid_create env_lookup_fails "VGP" 3 ⟨12288, report_descriptor⟩ 50 []).2
        = []) := by
  decide

/-! ## Interpreting the broker's answer -/

theorem opens_append (env : Env) (t u : Trace) : opens env (t ++ u) = opens env t + opens env u := by
  simp [opens]

theorem closes_append (t u : Trace) : closes (t ++ u) = closes t + closes u := by
  simp [closes]

theorem foohid_connect_loop_opens (env : Env) (iterator : List Nat) (conn : Nat) (tr : Trace) :
    opens env (foohid_connect_loop env iterator conn tr).2 = opens env tr ∨
    opens env (foohid_connect_loop env iterator conn tr).2 = opens env tr + 1 := by
  induction iterator generalizing conn tr with
  | nil =>
    left
    simp [foohid_connect_loop, opens, Event.is_open]
  | cons service iterator ih =>
    simp only [foohid_connect_loop]
    split
    · split
      · rename_i h
        right
        simp [opens, Event.is_open, h]
      · rename_i h
        have e : opens env (tr ++ [Event.IOIteratorNext service] ++
            [Event.IOServiceOpen service
              (env.IOServiceOpen (tr ++ [Event.IOIteratorNext service]) service conn).1
              (env.IOServiceOpen (tr ++ [Event.IOIteratorNext service]) service conn).2])
            = opens env tr := by
          simp [opens, Event.is_open, h]
        rw [← e]
        exact ih _ _
    · left
      simp [opens, Event.is_open]

theorem foohid_connect_opens (env : Env) (conn : Nat) (tr : Trace) :
    ((foohid_connect env conn tr).1.1 ≠ 0 →
      opens env (foohid_connect env conn tr).2 = opens env tr) ∧
    (opens env (foohid_connect env conn tr).2 = opens env tr ∨
      opens env (foohid_connect env conn tr).2 = opens env tr + 1) := by
  have e : opens env (tr ++ [Event.IOServiceGetMatchingServices FoohidService
      (env.IOServiceGetMatchingServices tr FoohidService).1
      (env.IOServiceGetMatchingServices tr FoohidService).2]) = opens env tr := by
    simp [opens, Event.is_open]
  unfold foohid_connect
  simp only []
  split
  · exact ⟨fun _ => e, Or.inl e⟩
  · refine ⟨fun h => absurd (foohid_connect_loop_ret env _ _ _) h, ?_⟩
    rw [← e]
    exact foohid_connect_loop_opens env _ _ _

/-- On every path of the three operations at most one session is opened, at
most one close is issued, and a session that was opened is closed before the
operation returns: the opens never outnumber the closes.  The converse does
not hold: a close can be issued without an open. -/
theorem sessions_never_leak (env : Env) (name : String) (name_len : Int)
    (descriptor : Buffer) (descriptor_len : Int) (tr : Trace) :
    (opens env tr ≤ opens env (foohid_create env name name_len descriptor descriptor_len tr).2 ∧
      opens env (foohid_create env name name_len descriptor descriptor_len tr).2
        ≤ opens env tr + 1 ∧
      closes tr ≤ closes (foohid_create env name name_len descriptor descriptor_len tr).2 ∧
      closes (foohid_create env name name_len descriptor descriptor_len tr).2 ≤ closes tr + 1 ∧
      opens env (foohid_create env name name_len descriptor descriptor_len tr).2 + closes tr
        ≤ closes (foohid_create env name name_len descriptor descriptor_len tr).2
            + opens env tr) ∧
    (opens env tr ≤ opens env (foohid_send env name name_len descriptor descriptor_len tr).2 ∧
      opens env (foohid_send env name name_len descriptor descriptor_len tr).2
        ≤ opens env tr + 1 ∧
      closes tr ≤ closes (foohid_send env name name_len descriptor descriptor_len tr).2 ∧
      closes (foohid_send env name name_len descriptor descriptor_len tr).2 ≤ closes tr + 1 ∧
      opens env (foohid_send env name name_len descriptor descriptor_len tr).2 + closes tr
        ≤ closes (foohid_send env name name_len descriptor descriptor_len tr).2
            + opens env tr) ∧
    (opens env tr ≤ opens env (foohid_destroy env name name_len tr).2 ∧
      opens env (foohid_destroy env name name_len tr).2 ≤ opens env tr + 1 ∧
      closes tr ≤ closes (foohid_destroy env name name_len tr).2 ∧
      closes (foohid_destroy env name name_len tr).2 ≤ closes tr + 1 ∧
      opens env (foohid_destroy env name name_len tr).2 + closes tr
        ≤ closes (foohid_destroy env name name_len tr).2 + opens env tr) := by
  refine ⟨?_, ?_, ?_⟩
  · have ho := foohid_connect_opens env
      (env.indeterminate_conn
        (tr ++ [Event.call_foohid_create name name_len descriptor descriptor_len]))
      (tr ++ [Event.call_foohid_create name name_len descriptor descriptor_len])
    have hc := foohid_connect_countP _ is_close_lookup env
      (env.indeterminate_conn
        (tr ++ [Event.call_foohid_create name name_len descriptor descriptor_len]))
      (tr ++ [Event.call_foohid_create name name_len descriptor descriptor_len])
    unfold foohid_create
    simp only [foohid_close]
    generalize foohid_connect env _ _ = c at ho hc
    split
    · simp [opens, closes, List.countP_cons, Event.is_open, Event.is_close]
      omega
    · split
      · rename_i h
        have ho1 := ho.1 h
        simp [opens, closes, List.countP_cons, Event.is_open, Event.is_close] at ho1 hc ⊢
        omega
      · have ho2 := ho.2
        split
        · simp [opens, closes, List.countP_cons, Event.is_open, Event.is_close] at ho2 hc ⊢
          omega
        · simp [opens, closes, List.countP_cons, Event.is_open, Event.is_close] at ho2 hc ⊢
          omega
  · have ho := foohid_connect_opens env
      (env.indeterminate_conn
        (tr ++ [Event.call_foohid_send name name_len descriptor descriptor_len]))
      (tr ++ [Event.call_foohid_send name name_len descriptor descriptor_len])
    have hc := foohid_connect_countP _ is_close_lookup env
      (env.indeterminate_conn
        (tr ++ [Event.call_foohid_send name name_len descriptor descriptor_len]))
      (tr ++ [Event.call_foohid_send name name_len descriptor descriptor_len])
    unfold foohid_send
    simp only [foohid_close]
    generalize foohid_connect env _ _ = c at ho hc
    split
    · simp [opens, closes, List.countP_cons, Event.is_open, Event.is_close]
      omega
    · split
      · rename_i h
        have ho1 := ho.1 h
        simp [opens, closes, List.countP_cons, Event.is_open, Event.is_close] at ho1 hc ⊢
        omega
      · have ho2 := ho.2
        split
        · simp [opens, closes, List.countP_cons, Event.is_open, Event.is_close] at ho2 hc ⊢
          omega
        · simp [opens, closes, List.countP_cons, Event.is_open, Event.is_close] at ho2 hc ⊢
          omega
  · have ho := foohid_connect_opens env
      (env.indeterminate_conn (tr ++ [Event.call_foohid_destroy name name_len]))
      (tr ++ [Event.call_foohid_destroy name name_len])
    have hc := foohid_connect_countP _ is_close_lookup env
      (env.indeterminate_conn (tr ++ [Event.call_foohid_destroy name name_len]))
      (tr ++ [Event.call_foohid_destroy name name_len])
    unfold foohid_destroy
    simp only [foohid_close]
    generalize foohid_connect env _ _ = c at ho hc
    split
    · simp [opens, closes, List.countP_cons, Event.is_open, Event.is_close]
      omega
    · split
      · rename_i h
        have ho1 := ho.1 h
        simp [opens, closes, List.countP_cons, Event.is_open, Event.is_close] at ho1 hc ⊢
        omega
      · have ho2 := ho.2
        split
        · simp [opens, closes, List.countP_cons, Event.is_open, Event.is_close] at ho2 hc ⊢
          omega
        · simp [opens, closes, List.countP_cons, Event.is_open, Event.is_close] at ho2 hc ⊢
          omega

/-! ## Pairing of open and close -/

/-- C4, the code at the failing inputs: with an empty service iterator, and
with instances that all refuse the open, each of the three operations opens no
session and still calls `IOServiceClose` once, on a connection it never got. -/
theorem foohid_close_without_open :
    (opens env_absent (foohid_create env_absent "VGP" 3 ⟨12288, report_descriptor⟩ 50 []).2 = 0 ∧
      closes (foohid_create env_absent "VGP" 3 ⟨12288, report_descriptor⟩ 50 []).2 = 1) ∧
    (opens env_absent (foohid_send env_absent "VGP" 3 ⟨8192, [5, 251, 120]⟩ 3 []).2 = 0 ∧
      closes (foohid_send env_absent "VGP" 3 ⟨8192, [5, 251, 120]⟩ 3 []).2 = 1) ∧
    (opens env_absent (foohid_destroy env_absent "VGP" 3 []).2 = 0 ∧
      closes (foohid_destroy env_absent "VGP" 3 []).2 = 1) ∧
    (opens env_refused (foohid_destroy env_refused "VGP" 3 []).2 = 0 ∧
      closes (foohid_destroy env_refused "VGP" 3 []).2 = 1) ∧
    (opens env_ok (foohid_destroy env_ok "VGP" 3 []).2 = 1 ∧
      closes (foohid_destroy env_ok "VGP" 3 []).2 = 1) := by
  decide

/-! ## The driver -/

/-- C5: the exit status of `main` is 1 when `foohid_create` returned non-zero;
otherwise it is 1 when the final `foohid_destroy` returned non-zero and 0 when
it returned 0.  The return values of the first `foohid_destroy` (`d0`) and of
the sends (`ss`) are arbitrary and do not enter the exit status. -/
theorem main_exit_status (env : Env) (tr : Trace) :
    (∃ (d0 c : Int), c ≠ 0 ∧
      ops_returned (main env tr).2 = ops_returned tr ++ [(Op.destroy, d0), (Op.create, c)] ∧
      (main env tr).1 = 1) ∨
    (∃ (d0 : Int) (ss : List Int) (d1 : Int),
      ops_returned (main env tr).2
        = ops_returned tr ++ [(Op.destroy, d0), (Op.create, 0)]
            ++ ss.map (fun s => (Op.send, s)) ++ [(Op.destroy, d1)] ∧
      (main env tr).1 = if d1 ≠ 0 then 1 else 0) := by
  rcases main_shape env tr with
    ⟨d0, c, hc, _, _, _, hr, he⟩ | ⟨d0, ss, d1, _, _, _, _, _, hr, he⟩
  · exact Or.inl ⟨d0, c, hc, hr, he⟩
  · exact Or.inr ⟨d0, ss, d1, hr, he⟩

/-- C6: `main` issues one destroy and one create; when the create returned
non-zero it issues nothing more; when it returned 0 it issues exactly 10000
sends and then one destroy, whatever the sends (`ss`) returned. -/
theorem main_operation_sequence (env : Env) (tr : Trace) :
    (∃ (d0 c : Int), c ≠ 0 ∧
      ops_returned (main env tr).2 = ops_returned tr ++ [(Op.destroy, d0), (Op.create, c)] ∧
      ops_called (main env tr).2 = ops_called tr ++ [Op.destroy, Op.create]) ∨
    (∃ (d0 : Int) (ss : List Int) (d1 : Int), ss.length = 10000 ∧
      ops_returned (main env tr).2
        = ops_returned tr ++ [(Op.destroy, d0), (Op.create, 0)]
            ++ ss.map (fun s => (Op.send, s)) ++ [(Op.destroy, d1)] ∧
      ops_called (main env tr).2
        = ops_called tr ++ [Op.destroy, Op.create] ++ List.replicate 10000 Op.send
            ++ [Op.destroy]) := by
  rcases main_shape env tr with
    ⟨d0, c, hc, _, _, hcall, hr, _⟩ | ⟨d0, ss, d1, hlen, _, _, _, hcall, hr, _⟩
  · exact Or.inl ⟨d0, c, hc, hr, hcall⟩
  · exact Or.inr ⟨d0, ss, d1, hlen, hr, hcall⟩

/-- The scenario "service lookup fails": both the first destroy and the create
return -2, no broker call is made, no send is issued and the exit status is 1. -/
theorem main_when_lookup_fails :
    (main env_lookup_fails []).1 = 1 ∧
    ops_returned (main env_lookup_fails []).2 = [(Op.destroy, -2), (Op.create, -2)] ∧
    ops_called (main env_lookup_fails []).2 = [Op.destroy, Op.create] ∧
    broker_calls (main env_lookup_fails []).2 = [] := by
  decide

theorem foohid_send_env_send_rejected (buf : Buffer) (u : Trace) :
    (foohid_send env_send_rejected FoohidDevice (to_int (strlen FoohidDevice)) buf
      (to_int sizeof_mouse_report_t) u).1 = -3 := by
  have e1 : to_int (strlen FoohidDevice) = 22 := by decide
  have e2 : to_int sizeof_mouse_report_t = 3 := by decide
  rw [e1, e2]
  simp [foohid_send, foohid_connect, foohid_connect_loop, env_send_rejected, fake_env]

theorem foohid_create_env_send_rejected (u : Trace) :
    (foohid_create env_send_rejected FoohidDevice (to_int (strlen FoohidDevice))
      ⟨env_send_rejected.addr_report_descriptor, report_descriptor⟩
      (to_int sizeof_report_descriptor) u).1 = 0 := by
  have e1 : to_int (strlen FoohidDevice) = 22 := by decide
  have e2 : to_int sizeof_report_descriptor = 50 := by decide
  rw [e1, e2]
  simp [foohid_create, foohid_connect, foohid_connect_loop, env_send_rejected, fake_env,
    FOOHID_CREATE, FOOHID_SEND]

theorem foohid_destroy_env_send_rejected (u : Trace) :
    (foohid_destroy env_send_rejected FoohidDevice (to_int (strlen FoohidDevice)) u).1 = 0 := by
  have e1 : to_int (strlen FoohidDevice) = 22 := by decide
  rw [e1]
  simp [foohid_destroy, foohid_connect, foohid_connect_loop, env_send_rejected, fake_env,
    FOOHID_DESTROY, FOOHID_SEND]

/-- The scenario "every send fails": against a broker that rejects every SEND
and accepts CREATE and DESTROY, `main` still issues all 10000 sends, each
returning -3, then the final destroy, and exits with status 0. -/
theorem main_when_every_send_fails :
    (main env_send_rejected []).1 = 0 ∧
    ops_called (main env_send_rejected []).2
      = [Op.destroy, Op.create] ++ List.replicate 10000 Op.send ++ [Op.destroy] ∧
    ops_returned (main env_send_rejected []).2
      = [(Op.destroy, 0), (Op.create, 0)] ++ List.replicate 10000 (Op.send, -3)
          ++ [(Op.destroy, 0)] := by
  rcases main_shape env_send_rejected [] with
    ⟨d0, c, hc, _, ⟨u, hu⟩, _, _, _⟩ | ⟨d0, ss, d1, hlen, ⟨u0, hd0⟩, hss, ⟨u1, hd1⟩, hcall, hr, he⟩
  · rw [foohid_create_env_send_rejected] at hu
    exact absurd hu hc
  · rw [foohid_destroy_env_send_rejected] at hd0 hd1
    subst hd0 hd1
    have hall : ss = List.replicate 10000 (-3) := by
      rw [List.eq_replicate_iff]
      refine ⟨hlen, fun s hs => ?_⟩
      obtain ⟨buf, u, h⟩ := hss s hs
      rw [foohid_send_env_send_rejected] at h
      exact h
    subst hall
    refine ⟨by rw [he]; rfl, ?_, ?_⟩
    · rw [hcall]; rfl
    · rw [hr, List.map_replicate]; rfl

/-! ## The readiness wait -/

/-- C8: when `linuxtrack_init` did not report a failure state, let `ps` be the
states that the polls of `intialise_tracking` returned, each an answer of the
tracker.  If none of them is `RUNNING` or `PAUSED`, the function returns false
after exactly 200 polls and 200 sleeps.  If the `k`-th of them (1 ≤ k ≤ 200) is
`RUNNING` or `PAUSED` and no earlier one is, the function returns true after
exactly `k` polls and `k - 1` sleeps.  Every sleep is a `usleep` of 100000
microseconds, that is the interval of 100 ms. -/
theorem readiness_wait (env : Env) (tr : Trace)
    (hinit : ¬ env.linuxtrack_init tr < env.LINUXTRACK_OK) :
    ∃ ps : List Int,
      polls (intialise_tracking env tr).2 = polls tr ++ ps ∧
      (∀ s ∈ ps, ∃ t, s = env.linuxtrack_get_tracking_state t) ∧
      ((∀ s ∈ ps, ¬ ready env s) →
        (intialise_tracking env tr).1 = false ∧ ps.length = 200 ∧
        sleeps (intialise_tracking env tr).2 = sleeps tr + 200 ∧
        sleep_intervals (intialise_tracking env tr).2
          = sleep_intervals tr ++ List.replicate 200 100000) ∧
      (∀ k, 1 ≤ k → k ≤ 200 →
        (∃ s, ps[k - 1]? = some s ∧ ready env s) →
        (∀ j, j < k - 1 → ∀ s, ps[j]? = some s → ¬ ready env s) →
        (intialise_tracking env tr).1 = true ∧ ps.length = k ∧
        sleeps (intialise_tracking env tr).2 = sleeps tr + (k - 1) ∧
        sleep_intervals (intialise_tracking env tr).2
          = sleep_intervals tr ++ List.replicate (k - 1) 100000) := by
  have hiv := intialise_tracking_intervals env tr
  obtain ⟨ps, hp, horacle, hcase⟩ := intialise_tracking_loop_view env 200 0
    (tr ++ [Event.linuxtrack_init (env.linuxtrack_init tr)]) rfl
  have hp0 : polls (tr ++ [Event.linuxtrack_init (env.linuxtrack_init tr)]) = polls tr := by
    simp [polls, Event.polled]
  have hs0 : sleeps (tr ++ [Event.linuxtrack_init (env.linuxtrack_init tr)]) = sleeps tr := by
    simp [sleeps, Event.is_sleep]
  rw [hp0] at hp
  rw [hs0] at hcase
  unfold intialise_tracking at hiv ⊢
  simp only [hinit, if_false] at hiv ⊢
  refine ⟨ps, hp, horacle, ?_, ?_⟩
  · intro hall
    rcases hcase with ⟨h1, h2, h3, _⟩ | ⟨_, _, _, front, last, h4, h5, _⟩
    · refine ⟨h1, h2, h3, ?_⟩
      rw [hiv, h3]
      congr 2
      omega
    · exact absurd h5 (hall last (by simp [h4]))
  · intro k hk1 hk2 ⟨s, hs, hready⟩ _
    rcases hcase with ⟨_, _, _, h4⟩ | ⟨h1, h2, h3, front, last, h4, h5, h6⟩
    · exact absurd hready (h4 s (mem_of_getElem?_some ps _ s hs))
    · have hlen : ps.length = front.length + 1 := by simp [h4]
      have hlt : k - 1 < ps.length := by
        rw [List.getElem?_eq_some] at hs
        exact hs.1
      have hge : front.length ≤ k - 1 := by
        by_contra hcon
        have hlt2 : k - 1 < front.length := by omega
        have : front[k - 1]? = some s := by
          rw [h4, List.getElem?_append_left hlt2] at hs
          exact hs
        exact h6 s (mem_of_getElem?_some front _ s this) hready
      have hsl : sleeps (intialise_tracking_loop env 0
          (tr ++ [Event.linuxtrack_init (env.linuxtrack_init tr)])).2
          = sleeps tr + (k - 1) := by omega
      refine ⟨h1, by omega, hsl, ?_⟩
      rw [hiv, hsl]
      congr 2
      omega

/-- The run of `intialise_tracking` against a tracker that answers `RUNNING` to the third poll. -/
theorem intialise_tracking_env_third :
    polls (intialise_tracking env_third []).2 = [0, 0, 1] := by
  unfold intialise_tracking
  simp only []
  rw [intialise_tracking_loop]
  simp [env_third, fake_env, polls, Event.polled]
  rw [intialise_tracking_loop]
  simp [env_third, fake_env, polls, Event.polled]
  rw [intialise_tracking_loop]
  simp [env_third, fake_env, polls, Event.polled]

/-- C8 at concrete inputs: a tracker that never becomes ready (false, 200
polls, 200 sleeps of 100000 microseconds) and a tracker that is `RUNNING` at
the third poll (true, 3 polls, 2 sleeps of 100000 microseconds). -/
theorem readiness_wait_witness :
    ((intialise_tracking env_never []).1 = false ∧
      (polls (intialise_tracking env_never []).2).length = 200 ∧
      sleeps (intialise_tracking env_never []).2 = 200 ∧
      sleep_intervals (intialise_tracking env_never []).2 = List.replicate 200 100000) ∧
    ((intialise_tracking env_third []).1 = true ∧
      polls (intialise_tracking env_third []).2 = [0, 0, 1] ∧
      sleeps (intialise_tracking env_third []).2 = 2 ∧
      sleep_intervals (intialise_tracking env_third []).2 = [100000, 100000]) := by
  constructor
  · obtain ⟨ps, hp, horacle, h1, _⟩ := readiness_wait env_never [] (by decide)
    have hall : ∀ s ∈ ps, ¬ ready env_never s := by
      intro s hs
      obtain ⟨t, rfl⟩ := horacle s hs
      simp [ready, env_never, fake_env]
    obtain ⟨hr, hl, hsl, hiv⟩ := h1 hall
    refine ⟨hr, ?_, ?_, ?_⟩
    · rw [hp]; simp [polls, hl]
    · rw [hsl]; simp [sleeps]
    · rw [hiv]; rfl
  · obtain ⟨ps, hp, _, _, h2⟩ := readiness_wait env_third [] (by decide)
    have hps : ps = [0, 0, 1] := by
      rw [intialise_tracking_env_third] at hp
      simpa [polls] using hp.symm
    subst hps
    obtain ⟨hr, _, hsl, hiv⟩ := h2 3 (by decide) (by decide) ⟨1, rfl, by decide⟩
      (by
        intro j hj s hs
        have hj2 : j = 0 ∨ j = 1 := by omega
        rcases hj2 with rfl | rfl
        · simp at hs; subst hs; decide
        · simp at hs; subst hs; decide)
    refine ⟨hr, intialise_tracking_env_third, ?_, ?_⟩
    · rw [hsl]; simp [sleeps]
    · rw [hiv]; rfl

/-! ## The wire layout of `mouse_report_t` -/

/-- C7 as stated fails: the value 8 can be stored in `buttons` (a `uint8_t`),
and the report with that value has byte 0 equal to `0x08`, whose bits 3..7 are
not 0. -/
theorem buttons_byte_is_not_masked :
    (mouse_report_t.mk 8 0 0).storable ∧
    (mouse_report_t.mk 8 0 0).bytes = [0x08, 0x00, 0x00] ∧
    (mouse_report_t.mk 8 0 0).bytes.getD 0 0 / 8 ≠ 0 := by
  decide

/-- C7, amended: for every report that can be stored in a `mouse_report_t`,
the wire encoding is exactly 3 bytes; byte 0 is the stored `buttons` value
itself, so its bits 0..2 are the low three bits of `buttons` and its bits 3..7
are 0 exactly when `buttons` is below 8; byte 1 and byte 2 are the two's
complement encodings of `x` and `y`.  In particular `{0b101, -5, 120}` encodes
to `[0x05, 0xFB, 0x78]`. -/
theorem mouse_report_wire_layout (r : mouse_report_t) (h : r.storable) :
    r.bytes.length = 3 ∧
    r.bytes.length = sizeof_mouse_report_t ∧
    r.bytes = [r.buttons,
      Int.toNat (if 0 ≤ r.x then r.x else r.x + 256),
      Int.toNat (if 0 ≤ r.y then r.y else r.y + 256)] ∧
    r.bytes.getD 0 0 % 8 = r.buttons % 8 ∧
    (r.bytes.getD 0 0 / 8 = 0 ↔ r.buttons < 8) ∧
    (∀ b ∈ r.bytes, b < 256) ∧
    (mouse_report_t.mk 0b101 (-5) 120).bytes = [0x05, 0xFB, 0x78] := by
  obtain ⟨hb, ⟨hx1, hx2⟩, ⟨hy1, hy2⟩⟩ := h
  have e0 : to_uint8 (r.buttons : Int) = r.buttons := by
    unfold to_uint8; omega
  have e1 : to_uint8 r.x = Int.toNat (if 0 ≤ r.x then r.x else r.x + 256) := by
    unfold to_uint8; split <;> omega
  have e2 : to_uint8 r.y = Int.toNat (if 0 ≤ r.y then r.y else r.y + 256) := by
    unfold to_uint8; split <;> omega
  have l1 : to_uint8 r.x < 256 := by unfold to_uint8; omega
  have l2 : to_uint8 r.y < 256 := by unfold to_uint8; omega
  refine ⟨rfl, rfl, ?_, ?_, ?_, ?_, by decide⟩
  · simp only [mouse_report_t.bytes, e0, e1, e2]
  · simp only [mouse_report_t.bytes, e0, List.getD_cons_zero]
  · simp only [mouse_report_t.bytes, e0, List.getD_cons_zero]
    omega
  · intro b hb2
    simp only [mouse_report_t.bytes, e0, List.mem_cons, List.mem_singleton,
      List.not_mem_nil, or_false] at hb2
    rcases hb2 with rfl | rfl | rfl
    · exact hb
    · exact l1
    · exact l2

/-- C7, amended, at the report of the spec's scenario. -/
theorem mouse_report_wire_layout_witness :
    (mouse_report_t.mk 0b101 (-5) 120).storable ∧
    (mouse_report_t.mk 0b101 (-5) 120).bytes = [0x05, 0xFB, 0x78] ∧
    (mouse_report_t.mk 0b101 (-5) 120).bytes.getD 0 0 / 8 = 0 :=
  ⟨by decide,
   (mouse_report_wire_layout (mouse_report_t.mk 0b101 (-5) 120) (by decide)).2.2.1.trans
     (by decide),
   (mouse_report_wire_layout (mouse_report_t.mk 0b101 (-5) 120) (by decide)).2.2.2.2.1.2
     (by decide)⟩

/-! ## The report descriptor -/

/-- C9: read by the HID short-item grammar, `report_descriptor` is consumed
completely with balanced collections and declares exactly three INPUT items, in
order: 3 fields of 1 bit (data, Button usages 1..3), 1 field of 5 bits
(constant), 2 fields of 8 bits (data, relative, usages X and Y, -127..127).
The fields are bits 0, 1, 2, then 3..7, then 8..15 and 16..23: 24 bits in
all, which is 8 times `sizeof(mouse_report_t)`; and read from the bytes of a
`mouse_report_t` the button fields are the low three bits of `buttons`, the
padding its high five bits, and the two axis fields the bytes of `x` and `y`. -/
theorem report_descriptor_matches_mouse_report :
    hid_decode report_descriptor = some
      [⟨3, 1, 0x02, 0x09, [], some 1, some 3, 0, 1⟩,
       ⟨1, 5, 0x03, 0x09, [], none, none, 0, 1⟩,
       ⟨2, 8, 0x06, 0x01, [0x30, 0x31], none, none, -127, 127⟩] ∧
    (hid_decode report_descriptor).map (fun l => l.map HidInput.is_constant)
      = some [false, true, false] ∧
    (hid_decode report_descriptor).map (fun l => l.map HidInput.is_relative)
      = some [false, false, true] ∧
    (hid_decode report_descriptor).map (hid_bit_ranges 0) = some [(0, 3), (3, 5), (8, 16)] ∧
    (hid_decode report_descriptor).map (hid_field_ranges 0)
      = some [(0, 1), (1, 1), (2, 1), (3, 5), (8, 8), (16, 8)] ∧
    (hid_decode report_descriptor).map (fun l => (l.map HidInput.bits).sum) = some 24 ∧
    24 = 8 * sizeof_mouse_report_t ∧
    (∀ r : mouse_report_t, r.storable →
      hid_field r.bytes 0 1 = r.buttons % 2 ∧
      hid_field r.bytes 1 1 = r.buttons / 2 % 2 ∧
      hid_field r.bytes 2 1 = r.buttons / 4 % 2 ∧
      hid_field r.bytes 3 5 = r.buttons / 8 ∧
      hid_field r.bytes 8 8 = to_uint8 r.x ∧
      hid_field r.bytes 16 8 = to_uint8 r.y) := by
  refine ⟨by decide, by decide, by decide, by decide, by decide, by decide, by decide, ?_⟩
  intro r h
  obtain ⟨hb, _, _⟩ := h
  have e0 : to_uint8 (r.buttons : Int) = r.buttons := by
    unfold to_uint8; omega
  have l1 : to_uint8 r.x < 256 := by unfold to_uint8; omega
  have l2 : to_uint8 r.y < 256 := by unfold to_uint8; omega
  simp only [hid_field, mouse_report_t.bytes, hid_unsigned, e0]
  generalize to_uint8 r.x = bx at *
  generalize to_uint8 r.y = by1 at *
  norm_num
  refine ⟨?_, ?_, ?_, ?_, ?_, ?_⟩ <;> omega

/-- C9 at the report of the spec's scenario: buttons 1 and 3 pressed, no
padding bit set, and the bytes of -5 and 120 in the axis fields. -/
theorem report_descriptor_matches_mouse_report_witness :
    (mouse_report_t.mk 0b101 (-5) 120).storable ∧
    hid_field (mouse_report_t.mk 0b101 (-5) 120).bytes 0 1 = 1 ∧
    hid_field (mouse_report_t.mk 0b101 (-5) 120).bytes 1 1 = 0 ∧
    hid_field (mouse_report_t.mk 0b101 (-5) 120).bytes 2 1 = 1 ∧
    hid_field (mouse_report_t.mk 0b101 (-5) 120).bytes 3 5 = 0 ∧
    hid_field (mouse_report_t.mk 0b101 (-5) 120).bytes 8 8 = 0xFB ∧
    hid_field (mouse_report_t.mk 0b101 (-5) 120).bytes 16 8 = 0x78 :=
  ⟨by decide,
   (report_descriptor_matches_mouse_report.2.2.2.2.2.2.2
     (mouse_report_t.mk 0b101 (-5) 120) (by decide))⟩

/-! ## The reports of the streaming loop -/

theorem to_int8_range (v : Int) : -128 ≤ to_int8 v ∧ to_int8 v ≤ 127 := by
  unfold to_int8; omega

theorem to_int8_logical_range (v : Int) : -127 ≤ to_int8 v ↔ v % 256 ≠ 128 := by
  unfold to_int8; omega

/-- C10 as stated fails: 128 is a value `rand()` can return (it is at most
`RAND_MAX`), and when both calls return it the report passed to `foohid_send`
has `x = y = -128`, below the logical minimum -127 that `report_descriptor`
declares for the axes. -/
theorem rand_report_below_logical_minimum :
    (0 ≤ (128 : Int) ∧ (128 : Int) ≤ 32767 ∧ 32767 ≤ env_rand128.RAND_MAX) ∧
    rand_values (main_loop_body env_rand128 []) = [128, 128] ∧
    sent_reports (main_loop_body env_rand128 [])
      = [⟨env_rand128.addr_mouse, (mouse_report_t.mk 0 (-128) (-128)).bytes⟩] ∧
    to_int8 128 = -128 ∧
    (hid_decode report_descriptor).map (fun l => l.map HidInput.logical_minimum)
      = some [0, 0, -127] ∧
    ¬ (-127 ≤ to_int8 128) := by
  decide

/-- C10, amended: in every pass of the streaming loop, with `rx` and `ry` the
two values `rand()` returned, the report passed to `foohid_send` has
`buttons = 0`, `x = to_int8 rx` and `y = to_int8 ry`, both in -128..127 and
congruent to the `rand()` value modulo 256; `x` (and likewise `y`) is inside
the declared logical range -127..127 exactly when `rx` is not 128 modulo 256. -/
theorem streaming_report_range (env : Env) (tr : Trace) :
    ∃ rx ry : Int,
      rand_values (main_loop_body env tr) = rand_values tr ++ [rx, ry] ∧
      sent_reports (main_loop_body env tr)
        = sent_reports tr ++
            [⟨env.addr_mouse, (mouse_report_t.mk 0 (to_int8 rx) (to_int8 ry)).bytes⟩] ∧
      (mouse_report_t.mk 0 (to_int8 rx) (to_int8 ry)).buttons = 0 ∧
      (-128 ≤ to_int8 rx ∧ to_int8 rx ≤ 127) ∧
      (-128 ≤ to_int8 ry ∧ to_int8 ry ≤ 127) ∧
      ((to_int8 rx - rx) % 256 = 0 ∧ (to_int8 ry - ry) % 256 = 0) ∧
      (-127 ≤ to_int8 rx ↔ rx % 256 ≠ 128) ∧
      (-127 ≤ to_int8 ry ↔ ry % 256 ≠ 128) := by
  obtain ⟨t0, ht0, h1, h2⟩ : ∃ t0 : Trace,
      (if env.linuxtrack_get_pose tr > 0 then
        tr ++ [Event.linuxtrack_get_pose (env.linuxtrack_get_pose tr)] ++
          [Event.printf "heading:%f  pitch:%f  roll:%f\n  x:%f  y:%f  z:%f\n"]
      else tr ++ [Event.linuxtrack_get_pose (env.linuxtrack_get_pose tr)]) = t0 ∧
      rand_values t0 = rand_values tr ∧ sent_reports t0 = sent_reports tr := by
    refine ⟨_, rfl, ?_, ?_⟩
    · split <;> simp [rand_values, Event.rand_value]
    · split <;> simp [sent_reports, Event.sent]
  unfold main_loop_body
  simp only [ht0]
  refine ⟨env.rand t0, env.rand (t0 ++ [Event.rand (env.rand t0)]), ?_, ?_, trivial,
    to_int8_range _, to_int8_range _, ⟨?_, ?_⟩,
    to_int8_logical_range _, to_int8_logical_range _⟩
  · rw [(foohid_send_view _ _ _ _ _ _).2.2.2]
    simp [rand_values, Event.rand_value] at h1 ⊢
    exact h1
  · rw [(foohid_send_view _ _ _ _ _ _).2.2.1]
    have z : to_uint8 0 = 0 := by decide
    simp [sent_reports, Event.sent, z] at h2 ⊢
    exact h2
  · unfold to_int8; omega
  · unfold to_int8; omega

end Hidtracker
